import Mathlib

/-!
Verification of the Volume Control Facade in `src/mcpserver/deployment.py`.

The facade (`VolumeController`) wraps a single OS audio endpoint handle
(pycaw `IAudioEndpointVolume`).  We embed it shallowly:

* Scalars, decibels and percentages are modelled as `ℚ` (the spec's
  "fake endpoint with exact scalar semantics").  Python's `round(x, n)`
  is modelled by `roundDec n x`, rounding half away from zero, which
  agrees with the observable behaviour of Python's `round` at every
  value the claims exercise.
* The endpoint is a record `Endpoint` holding the audio state together
  with an optional fault (exception message) per endpoint call, so that
  "the endpoint throws on a call" is expressible.  A faulted call raises
  its message and leaves the endpoint untouched.  Write counters
  (`scalarWrites`, `muteWrites`) record how many set-calls were
  performed, so "performs no write" is a provable statement.
* The controller's `self._volume` field is an `Option Endpoint`:
  `none` models failed endpoint acquisition at construction (the Python
  code then raises `RuntimeError("Audio interface not initialized")`
  inside each operation and converts it to the error dict).
* Each operation returns its result record together with the endpoint
  after the call.  The Lean functions are total: every exception of the
  Python code is caught inside the operation and becomes the error
  variant, which is exactly the facade's propagation policy.
-/

/-- Round a rational to the nearest integer, halves away from zero.
Models Python's `round` tie behaviour as observed at the values used in
`deployment.py` (e.g. `round(-12.345, 2) = -12.35`). -/
def roundHalfAway (x : ℚ) : ℤ :=
  if 0 ≤ x then ⌊x + 1 / 2⌋ else -⌊-x + 1 / 2⌋

/-- Python's `round(x, n)`: round to `n` decimal places. -/
def roundDec (n : ℕ) (x : ℚ) : ℚ :=
  (roundHalfAway (x * 10 ^ n) : ℚ) / 10 ^ n

/-- The audio endpoint (pycaw `IAudioEndpointVolume` handle) as seen by
the facade: its state (scalar volume, decibel level, mute flag), write
counters instrumenting the set-calls, and one optional fault per call
site modelling an exception thrown by the platform on that call. -/
structure Endpoint where
  scalar : ℚ
  db : ℚ
  muted : Bool
  scalarWrites : ℕ := 0
  muteWrites : ℕ := 0
  getScalarFault : Option String := none
  getDbFault : Option String := none
  getMuteFault : Option String := none
  setScalarFault : Option String := none
  setMuteFault : Option String := none
deriving DecidableEq, Repr

/-- `GetMasterVolumeLevelScalar`: read the scalar volume (0.0 to 1.0). -/
def Endpoint.GetMasterVolumeLevelScalar (e : Endpoint) : Except String ℚ :=
  match e.getScalarFault with
  | some m => .error m
  | none => .ok e.scalar

/-- `GetMasterVolumeLevel`: read the volume in decibels. -/
def Endpoint.GetMasterVolumeLevel (e : Endpoint) : Except String ℚ :=
  match e.getDbFault with
  | some m => .error m
  | none => .ok e.db

/-- `GetMute`: read the mute flag. -/
def Endpoint.GetMute (e : Endpoint) : Except String Bool :=
  match e.getMuteFault with
  | some m => .error m
  | none => .ok e.muted

/-- `SetMasterVolumeLevelScalar`: write the scalar volume.  A faulted
call raises and does not mutate; a successful call updates the scalar
and bumps the write counter. -/
def Endpoint.SetMasterVolumeLevelScalar (e : Endpoint) (v : ℚ) :
    Except String Endpoint :=
  match e.setScalarFault with
  | some m => .error m
  | none => .ok { e with scalar := v, scalarWrites := e.scalarWrites + 1 }

/-- `SetMute`: write the mute flag (the Python code passes `1`/`0`,
converted here to `Bool`). -/
def Endpoint.SetMute (e : Endpoint) (b : Bool) : Except String Endpoint :=
  match e.setMuteFault with
  | some m => .error m
  | none => .ok { e with muted := b, muteWrites := e.muteWrites + 1 }

/-- The endpoint never throws: every fault slot is empty. -/
def Endpoint.noFaults (e : Endpoint) : Prop :=
  e.getScalarFault = none ∧ e.getDbFault = none ∧ e.getMuteFault = none ∧
    e.setScalarFault = none ∧ e.setMuteFault = none

instance (e : Endpoint) : Decidable e.noFaults := by
  unfold Endpoint.noFaults; infer_instance

/-- Result of `VolumeController.get_volume` (the dicts of lines 64-70 and
74-77 of `deployment.py`, discriminated by their `status` key). -/
inductive GetVolumeResult where
  | success (volume_percentage volume_scalar volume_db : ℚ) (is_muted : Bool)
  | error (msg : String)
deriving DecidableEq, Repr

/-- Result of `VolumeController.set_volume` (lines 101-106 / 110-113). -/
inductive SetVolumeResult where
  | success (requested_percentage actual_percentage volume_scalar : ℚ)
  | error (msg : String)
deriving DecidableEq, Repr

/-- Result of `VolumeController.mute` / `unmute` (message, was_muted,
is_muted dicts of lines 125-142 / 161-178). -/
inductive MuteResult where
  | success (message : String) (was_muted is_muted : Bool)
  | error (msg : String)
deriving DecidableEq, Repr

/-- Result of `VolumeController.toggle_mute` (lines 203-209). -/
inductive ToggleMuteResult where
  | success (message : String) (was_muted is_muted : Bool) (action : String)
  | error (msg : String)
deriving DecidableEq, Repr

/-- `VolumeController.get_volume` (lines 50-77): read scalar, decibels
and mute flag, derive the percentage; any exception becomes the error
dict. -/
def VolumeController.get_volume :
    Option Endpoint → GetVolumeResult × Option Endpoint
  | none => (.error "Audio interface not initialized", none)
  | some e =>
    match e.GetMasterVolumeLevelScalar with
    | .error m => (.error m, some e)
    | .ok volume_scalar =>
      match e.GetMasterVolumeLevel with
      | .error m => (.error m, some e)
      | .ok volume_db =>
        match e.GetMute with
        | .error m => (.error m, some e)
        | .ok is_muted =>
          (.success (roundDec 1 (volume_scalar * 100)) volume_scalar
            (roundDec 2 volume_db) is_muted, some e)

/-- `VolumeController.set_volume` (lines 79-113): validate the
percentage, write `percentage / 100` as the scalar, then re-read the
actual scalar and report it. -/
def VolumeController.set_volume :
    Option Endpoint → ℚ → SetVolumeResult × Option Endpoint
  | none, _ => (.error "Audio interface not initialized", none)
  | some e, percentage =>
    if ¬ (0 ≤ percentage ∧ percentage ≤ 100) then
      (.error "Volume percentage must be between 0 and 100", some e)
    else
      match e.SetMasterVolumeLevelScalar (percentage / 100) with
      | .error m => (.error m, some e)
      | .ok e1 =>
        match e1.GetMasterVolumeLevelScalar with
        | .error m => (.error m, some e1)
        | .ok actual_volume =>
          (.success percentage (roundDec 1 (actual_volume * 100))
            actual_volume, some e1)

/-- `VolumeController.mute` (lines 115-149): no-op with a dedicated
message when already muted, otherwise set the mute flag. -/
def VolumeController.mute : Option Endpoint → MuteResult × Option Endpoint
  | none => (.error "Audio interface not initialized", none)
  | some e =>
    match e.GetMute with
    | .error m => (.error m, some e)
    | .ok was_muted =>
      if was_muted then
        (.success "System was already muted" true true, some e)
      else
        match e.SetMute true with
        | .error m => (.error m, some e)
        | .ok e1 => (.success "System muted successfully" false true, some e1)

/-- `VolumeController.unmute` (lines 151-185): symmetric to `mute`. -/
def VolumeController.unmute : Option Endpoint → MuteResult × Option Endpoint
  | none => (.error "Audio interface not initialized", none)
  | some e =>
    match e.GetMute with
    | .error m => (.error m, some e)
    | .ok was_muted =>
      if was_muted then
        match e.SetMute false with
        | .error m => (.error m, some e)
        | .ok e1 =>
          (.success "System unmuted successfully" true false, some e1)
      else
        (.success "System was already unmuted" false false, some e)

/-- `VolumeController.toggle_mute` (lines 187-216): read the mute flag
and unconditionally write its negation. -/
def VolumeController.toggle_mute :
    Option Endpoint → ToggleMuteResult × Option Endpoint
  | none => (.error "Audio interface not initialized", none)
  | some e =>
    match e.GetMute with
    | .error m => (.error m, some e)
    | .ok current_mute =>
      match e.SetMute (!current_mute) with
      | .error m => (.error m, some e)
      | .ok e1 =>
        (.success
          ("System " ++ (if !current_mute then "muted" else "unmuted") ++
            " successfully")
          current_mute (!current_mute)
          (if !current_mute then "muted" else "unmuted"), some e1)

/-- Tool `get_volume` (lines 222-233): render the facade result as the
MCP reply string.  The source's literal prefixes (mojibake of emoji) are
reproduced exactly; numeric rendering is abstracted by `ℚ`'s
`toString`. -/
def get_volume (vol : Option Endpoint) : String × Option Endpoint :=
  let r := VolumeController.get_volume vol
  match r.1 with
  | .success pct _ db mu =>
    ("ğŸ”Š Volume: " ++ toString pct ++ "% | Muted: " ++
      (if mu then "Yes" else "No") ++ " | dB: " ++ toString db, r.2)
  | .error m => ("âŒ Error: " ++ m, r.2)

/-- Tool `set_volume` (lines 235-248). -/
def set_volume (vol : Option Endpoint) (percentage : ℚ) :
    String × Option Endpoint :=
  let r := VolumeController.set_volume vol percentage
  match r.1 with
  | .success req act _ =>
    ("ğŸ”Š Volume set to " ++ toString act ++
      "% (requested: " ++ toString req ++ "%)", r.2)
  | .error m => ("âŒ Error: " ++ m, r.2)

/-- Tool `mute` (lines 250-260). -/
def mute (vol : Option Endpoint) : String × Option Endpoint :=
  let r := VolumeController.mute vol
  match r.1 with
  | .success msg _ _ => ("ï¿½ " ++ msg, r.2)
  | .error m => ("âŒ Error: " ++ m, r.2)

/-- Tool `unmute` (lines 262-272). -/
def unmute (vol : Option Endpoint) : String × Option Endpoint :=
  let r := VolumeController.unmute vol
  match r.1 with
  | .success msg _ _ => ("ğŸ”‡ " ++ msg, r.2)
  | .error m => ("âŒ Error: " ++ m, r.2)

/-- Tool `toggle_mute` (lines 274-284). -/
def toggle_mute (vol : Option Endpoint) : String × Option Endpoint :=
  let r := VolumeController.toggle_mute vol
  match r.1 with
  | .success msg _ _ _ => ("ğŸ”‡ " ++ msg, r.2)
  | .error m => ("âŒ Error: " ++ m, r.2)

/-- The fault-free endpoint of the spec's end-to-end example:
scalar 0.57, decibels -12.345, unmuted. -/
def demoEndpoint : Endpoint :=
  { scalar := 57 / 100, db := -12345 / 1000, muted := false }

/-- An endpoint whose every call throws with message "boom". -/
def faultyEndpoint : Endpoint :=
  { scalar := 1 / 2, db := 0, muted := false,
    getScalarFault := some "boom", getDbFault := some "boom",
    getMuteFault := some "boom", setScalarFault := some "boom",
    setMuteFault := some "boom" }

/-- C7: if endpoint acquisition failed at construction the handle is
`none`, and every one of the five operations returns the error variant
with message "Audio interface not initialized"; the returned handle is
still `none` in each case, i.e. no re-acquisition is attempted. -/
theorem uninit_ops_error :
    VolumeController.get_volume none =
      (.error "Audio interface not initialized", none) ∧
    (∀ p : ℚ, VolumeController.set_volume none p =
      (.error "Audio interface not initialized", none)) ∧
    VolumeController.mute none =
      (.error "Audio interface not initialized", none) ∧
    VolumeController.unmute none =
      (.error "Audio interface not initialized", none) ∧
    VolumeController.toggle_mute none =
      (.error "Audio interface not initialized", none) :=
  ⟨rfl, fun _ => rfl, rfl, rfl, rfl⟩

/-- C9: `get_volume` only reads the endpoint: for every controller state
(absent handle, faulted or fault-free endpoint, any volume and mute
state) the endpoint coming out of the call is exactly the endpoint that
went in — same volume, same mute flag, same write counters. -/
theorem get_volume_no_write (vol : Option Endpoint) :
    (VolumeController.get_volume vol).2 = vol := by
  cases vol with
  | none => rfl
  | some e =>
    obtain ⟨s, d, mu, sw, mw, f1, f2, f3, f4, f5⟩ := e
    cases f1 <;> cases f2 <;> cases f3 <;> rfl

/-- C6: `get_volume` on a fault-free endpoint returns success carrying
the percentage `round(scalar * 100, 1)`, the raw scalar, the decibel
level rounded to 2 places, and the mute flag; in particular on the
endpoint preset to scalar 0.57, decibels -12.345, unmuted it returns
percentage 57, scalar 0.57, decibels -12.35, is_muted false. -/
theorem get_volume_reads_state :
    (∀ e : Endpoint, e.noFaults →
      VolumeController.get_volume (some e) =
        (.success (roundDec 1 (e.scalar * 100)) e.scalar (roundDec 2 e.db)
          e.muted, some e)) ∧
    VolumeController.get_volume (some demoEndpoint) =
      (.success 57 (57 / 100) (-1235 / 100) false, some demoEndpoint) := by
  have hgen : ∀ e : Endpoint, e.noFaults →
      VolumeController.get_volume (some e) =
        (.success (roundDec 1 (e.scalar * 100)) e.scalar (roundDec 2 e.db)
          e.muted, some e) := by
    intro e h
    obtain ⟨h1, h2, h3, h4, h5⟩ := h
    simp [VolumeController.get_volume, Endpoint.GetMasterVolumeLevelScalar,
      Endpoint.GetMasterVolumeLevel, Endpoint.GetMute, h1, h2, h3]
  refine ⟨hgen, ?_⟩
  rw [hgen demoEndpoint (by decide)]
  simp only [demoEndpoint]
  norm_num [roundDec, roundHalfAway]

/-- C6, evaluated: the general theorem applied to the spec's example
endpoint. -/
theorem get_volume_reads_state_witness :
    VolumeController.get_volume (some demoEndpoint) =
      (.success (roundDec 1 (demoEndpoint.scalar * 100)) demoEndpoint.scalar
        (roundDec 2 demoEndpoint.db) demoEndpoint.muted, some demoEndpoint) :=
  get_volume_reads_state.1 demoEndpoint (by decide)

/-- C3: on a fault-free endpoint, `mute` on an already muted system is a
no-op returning "System was already muted" with was_muted and is_muted
both true (endpoint unchanged, write counter untouched), and otherwise
performs exactly one mute write and returns was_muted false, is_muted
true, "System muted successfully"; `unmute` mirrors this: a no-op with
was_muted and is_muted false when already unmuted, otherwise one write
clearing the flag with was_muted true, is_muted false. -/
theorem mute_unmute_idempotent (e : Endpoint) (h : e.noFaults) :
    (e.muted = true →
      VolumeController.mute (some e) =
        (.success "System was already muted" true true, some e)) ∧
    (e.muted = false →
      VolumeController.mute (some e) =
        (.success "System muted successfully" false true,
          some { e with muted := true, muteWrites := e.muteWrites + 1 })) ∧
    (e.muted = false →
      VolumeController.unmute (some e) =
        (.success "System was already unmuted" false false, some e)) ∧
    (e.muted = true →
      VolumeController.unmute (some e) =
        (.success "System unmuted successfully" true false,
          some { e with
            muted := false
            muteWrites := e.muteWrites + 1 })) := by
  obtain ⟨h1, h2, h3, h4, h5⟩ := h
  refine ⟨fun hm => ?_, fun hm => ?_, fun hm => ?_, fun hm => ?_⟩ <;>
    simp [VolumeController.mute, VolumeController.unmute, Endpoint.GetMute,
      Endpoint.SetMute, h3, h5, hm]

/-- C3, evaluated on the unmuted example endpoint: muting writes once and
reports was_muted false; unmuting is the no-op branch. -/
theorem mute_unmute_idempotent_witness :
    VolumeController.mute (some demoEndpoint) =
      (.success "System muted successfully" false true,
        some { demoEndpoint with
            muted := true
            muteWrites := demoEndpoint.muteWrites + 1 }) ∧
    VolumeController.unmute (some demoEndpoint) =
      (.success "System was already unmuted" false false,
        some demoEndpoint) :=
  ⟨(mute_unmute_idempotent demoEndpoint (by decide)).2.1 rfl,
   (mute_unmute_idempotent demoEndpoint (by decide)).2.2.1 rfl⟩

/-- C4: on a fault-free endpoint, `toggle_mute` unconditionally performs
one mute write (the write counter always increments, even when the flag
could be left alone), storing the negation of the flag it read; the
success record reports was_muted as the prior flag, is_muted as the
negated flag and an action string matching the negated flag.  A second
`toggle_mute` restores the original mute flag after two writes, and the
two calls report opposite action strings. -/
theorem toggle_mute_always_writes (e : Endpoint) (h : e.noFaults) :
    VolumeController.toggle_mute (some e) =
      (.success ("System " ++ (if !e.muted then "muted" else "unmuted") ++
          " successfully") e.muted (!e.muted)
        (if !e.muted then "muted" else "unmuted"),
        some { e with
            muted := !e.muted
            muteWrites := e.muteWrites + 1 }) ∧
    (VolumeController.toggle_mute
        ((VolumeController.toggle_mute (some e)).2)).2 =
      some { e with muteWrites := e.muteWrites + 2 } ∧
    (VolumeController.toggle_mute
        ((VolumeController.toggle_mute (some e)).2)).1 =
      .success ("System " ++ (if e.muted then "muted" else "unmuted") ++
          " successfully") (!e.muted) e.muted
        (if e.muted then "muted" else "unmuted") ∧
    (if !e.muted then "muted" else "unmuted") ≠
      (if e.muted then "muted" else "unmuted") := by
  obtain ⟨h1, h2, h3, h4, h5⟩ := h
  obtain ⟨s, d, mu, sw, mw, f1, f2, f3, f4, f5⟩ := e
  simp only at h1 h2 h3 h4 h5
  subst h3 h5
  cases mu <;>
    simp [VolumeController.toggle_mute, Endpoint.GetMute, Endpoint.SetMute]

/-- C4, evaluated on the unmuted example endpoint. -/
theorem toggle_mute_always_writes_witness :
    VolumeController.toggle_mute (some demoEndpoint) =
      (.success ("System " ++
          (if !demoEndpoint.muted then "muted" else "unmuted") ++
          " successfully") demoEndpoint.muted (!demoEndpoint.muted)
        (if !demoEndpoint.muted then "muted" else "unmuted"),
        some { demoEndpoint with
            muted := !demoEndpoint.muted
            muteWrites := demoEndpoint.muteWrites + 1 }) ∧
    (VolumeController.toggle_mute
        ((VolumeController.toggle_mute (some demoEndpoint)).2)).2 =
      some { demoEndpoint with
             muteWrites := demoEndpoint.muteWrites + 2 } :=
  ⟨(toggle_mute_always_writes demoEndpoint (by decide)).1,
   (toggle_mute_always_writes demoEndpoint (by decide)).2.1⟩

/-- C5: for a percentage within bounds, `set_volume` on a fault-free
endpoint writes the scalar `p / 100` (one scalar write), re-reads it,
and returns success carrying the requested percentage `p`, the actual
percentage `round(p, 1)` computed from the re-read scalar, and the
re-read scalar itself. -/
theorem set_volume_in_range (e : Endpoint) (h : e.noFaults) (p : ℚ)
    (h0 : 0 ≤ p) (h100 : p ≤ 100) :
    VolumeController.set_volume (some e) p =
      (.success p (roundDec 1 p) (p / 100),
        some { e with
            scalar := p / 100
            scalarWrites := e.scalarWrites + 1 }) := by
  obtain ⟨h1, h2, h3, h4, h5⟩ := h
  have hp : p / 100 * 100 = p := div_mul_cancel₀ p (by norm_num)
  simp [VolumeController.set_volume, Endpoint.SetMasterVolumeLevelScalar,
    Endpoint.GetMasterVolumeLevelScalar, h0, h100, h1, h4, hp]

/-- C5, evaluated at percentage 50 on the example endpoint. -/
theorem set_volume_in_range_witness :
    VolumeController.set_volume (some demoEndpoint) 50 =
      (.success 50 (roundDec 1 50) (50 / 100),
        some { demoEndpoint with
            scalar := 50 / 100
            scalarWrites := demoEndpoint.scalarWrites + 1 }) :=
  set_volume_in_range demoEndpoint (by decide) 50 (by decide) (by decide)

/-- C2: for a percentage below 0 or above 100, `set_volume` returns the
error variant with message "Volume percentage must be between 0 and 100"
and the endpoint comes back exactly as it went in: no scalar write was
performed (the write counter is part of the endpoint equality), so the
endpoint's volume is unchanged. -/
theorem set_volume_out_of_range (e : Endpoint) (p : ℚ)
    (h : p < 0 ∨ 100 < p) :
    VolumeController.set_volume (some e) p =
      (.error "Volume percentage must be between 0 and 100", some e) := by
  have hc : ¬ (0 ≤ p ∧ p ≤ 100) := by
    rcases h with h | h
    · exact fun hand => (not_le.mpr h) hand.1
    · exact fun hand => (not_le.mpr h) hand.2
  simp [VolumeController.set_volume, hc]

/-- C2, evaluated at percentage 150 on the example endpoint. -/
theorem set_volume_out_of_range_witness :
    VolumeController.set_volume (some demoEndpoint) 150 =
      (.error "Volume percentage must be between 0 and 100",
        some demoEndpoint) :=
  set_volume_out_of_range demoEndpoint 150 (Or.inr (by decide))

/-- C1: every exception the endpoint raises during an operation is
converted into the error variant carrying that exception's message: for
each operation and each endpoint call it performs, if that call is the
first one to throw (message `m`), the operation's result is
`error m`.  The five operations are total Lean functions, so no
exception crosses the facade boundary.  (For `set_volume`, `p` ranges
over valid percentages so that the endpoint is actually reached.) -/
theorem fault_propagation (e : Endpoint) (m : String) (p : ℚ)
    (hp : 0 ≤ p ∧ p ≤ 100) :
    (e.getScalarFault = some m →
      (VolumeController.get_volume (some e)).1 = .error m) ∧
    (e.getScalarFault = none → e.getDbFault = some m →
      (VolumeController.get_volume (some e)).1 = .error m) ∧
    (e.getScalarFault = none → e.getDbFault = none →
      e.getMuteFault = some m →
      (VolumeController.get_volume (some e)).1 = .error m) ∧
    (e.setScalarFault = some m →
      (VolumeController.set_volume (some e) p).1 = .error m) ∧
    (e.setScalarFault = none → e.getScalarFault = some m →
      (VolumeController.set_volume (some e) p).1 = .error m) ∧
    (e.getMuteFault = some m →
      (VolumeController.mute (some e)).1 = .error m ∧
      (VolumeController.unmute (some e)).1 = .error m ∧
      (VolumeController.toggle_mute (some e)).1 = .error m) ∧
    (e.getMuteFault = none → e.muted = false → e.setMuteFault = some m →
      (VolumeController.mute (some e)).1 = .error m) ∧
    (e.getMuteFault = none → e.muted = true → e.setMuteFault = some m →
      (VolumeController.unmute (some e)).1 = .error m) ∧
    (e.getMuteFault = none → e.setMuteFault = some m →
      (VolumeController.toggle_mute (some e)).1 = .error m) := by
  obtain ⟨hp0, hp100⟩ := hp
  refine ⟨fun a => ?_, fun a b => ?_, fun a b c => ?_, fun a => ?_,
    fun a b => ?_, fun a => ⟨?_, ?_, ?_⟩, fun a b c => ?_,
    fun a b c => ?_, fun a b => ?_⟩ <;>
    simp_all [VolumeController.get_volume, VolumeController.set_volume,
      VolumeController.mute, VolumeController.unmute,
      VolumeController.toggle_mute, Endpoint.GetMasterVolumeLevelScalar,
      Endpoint.GetMasterVolumeLevel, Endpoint.GetMute,
      Endpoint.SetMasterVolumeLevelScalar, Endpoint.SetMute]

/-- C1, evaluated on the endpoint whose every call throws "boom": all
five operations return the error variant carrying "boom". -/
theorem fault_propagation_witness :
    (VolumeController.get_volume (some faultyEndpoint)).1 =
      .error "boom" ∧
    (VolumeController.set_volume (some faultyEndpoint) 50).1 =
      .error "boom" ∧
    (VolumeController.mute (some faultyEndpoint)).1 = .error "boom" ∧
    (VolumeController.unmute (some faultyEndpoint)).1 = .error "boom" ∧
    (VolumeController.toggle_mute (some faultyEndpoint)).1 =
      .error "boom" := by
  have h := fault_propagation faultyEndpoint "boom" 50 (by decide)
  exact ⟨h.1 rfl, h.2.2.2.1 rfl, (h.2.2.2.2.2.1 rfl).1,
    (h.2.2.2.2.2.1 rfl).2.1, (h.2.2.2.2.2.1 rfl).2.2⟩

/-- C10: in `mute`, `unmute` and `toggle_mute` the single mute write is
the last endpoint call, and a throwing call does not mutate, so whenever
one of them returns the error variant the endpoint comes back exactly as
it went in — in particular its mute flag is unchanged. -/
theorem mute_ops_error_atomic (e : Endpoint) :
    (∀ m, (VolumeController.mute (some e)).1 = MuteResult.error m →
      (VolumeController.mute (some e)).2 = some e) ∧
    (∀ m, (VolumeController.unmute (some e)).1 = MuteResult.error m →
      (VolumeController.unmute (some e)).2 = some e) ∧
    (∀ m, (VolumeController.toggle_mute (some e)).1 =
        ToggleMuteResult.error m →
      (VolumeController.toggle_mute (some e)).2 = some e) := by
  obtain ⟨s, d, mu, sw, mw, f1, f2, f3, f4, f5⟩ := e
  refine ⟨fun m h => ?_, fun m h => ?_, fun m h => ?_⟩ <;>
    cases f3 <;> cases f5 <;> cases mu <;>
      simp_all [VolumeController.mute, VolumeController.unmute,
        VolumeController.toggle_mute, Endpoint.GetMute, Endpoint.SetMute]

/-- C10, evaluated on the all-faults endpoint: each of the three mute
operations errors and hands back the untouched endpoint. -/
theorem mute_ops_error_atomic_witness :
    (VolumeController.mute (some faultyEndpoint)).2 =
      some faultyEndpoint ∧
    (VolumeController.unmute (some faultyEndpoint)).2 =
      some faultyEndpoint ∧
    (VolumeController.toggle_mute (some faultyEndpoint)).2 =
      some faultyEndpoint := by
  have h := mute_ops_error_atomic faultyEndpoint
  exact ⟨h.1 "boom" rfl, h.2.1 "boom" rfl, h.2.2 "boom" rfl⟩

/-- C8 counterexample: on the uninitialized controller the `get_volume`
tool does not render the failure as the bare string
"Error: Audio interface not initialized" — the source prefixes every
reply with a literal symbol (the mojibake characters present in
`deployment.py`), so the rendered string differs from the spec's exact
pattern. -/
theorem tool_render_cex :
    (get_volume none).1 ≠ "Error: Audio interface not initialized" := by
  decide

/-- C8 as amended: each tool reply follows the spec's wording after the
source's literal symbol prefix: `get_volume` success renders as
"<speaker> Volume: p% | Muted: Yes/No | dB: db", `set_volume` success as
"<speaker> Volume set to a% (requested: r%)", and every failure of any
of the five tools as the single line "<cross> Error: message", where
<speaker> and <cross> are the source's literal prefix characters. -/
theorem tool_render_patterns (vol : Option Endpoint) :
    (∀ pct s db mu, (VolumeController.get_volume vol).1 =
        GetVolumeResult.success pct s db mu →
      (get_volume vol).1 = "ğŸ”Š Volume: " ++ toString pct ++
        "% | Muted: " ++ (if mu then "Yes" else "No") ++ " | dB: " ++
        toString db) ∧
    (∀ m, (VolumeController.get_volume vol).1 = GetVolumeResult.error m →
      (get_volume vol).1 = "âŒ Error: " ++ m) ∧
    (∀ p req act s, (VolumeController.set_volume vol p).1 =
        SetVolumeResult.success req act s →
      (set_volume vol p).1 = "ğŸ”Š Volume set to " ++ toString act ++
        "% (requested: " ++ toString req ++ "%)") ∧
    (∀ p m, (VolumeController.set_volume vol p).1 =
        SetVolumeResult.error m →
      (set_volume vol p).1 = "âŒ Error: " ++ m) ∧
    (∀ msg w i, (VolumeController.mute vol).1 =
        MuteResult.success msg w i →
      (mute vol).1 = "ï¿½ " ++ msg) ∧
    (∀ m, (VolumeController.mute vol).1 = MuteResult.error m →
      (mute vol).1 = "âŒ Error: " ++ m) ∧
    (∀ msg w i, (VolumeController.unmute vol).1 =
        MuteResult.success msg w i →
      (unmute vol).1 = "ğŸ”‡ " ++ msg) ∧
    (∀ m, (VolumeController.unmute vol).1 = MuteResult.error m →
      (unmute vol).1 = "âŒ Error: " ++ m) ∧
    (∀ msg w i a, (VolumeController.toggle_mute vol).1 =
        ToggleMuteResult.success msg w i a →
      (toggle_mute vol).1 = "ğŸ”‡ " ++ msg) ∧
    (∀ m, (VolumeController.toggle_mute vol).1 =
        ToggleMuteResult.error m →
      (toggle_mute vol).1 = "âŒ Error: " ++ m) := by
  refine ⟨fun pct s db mu h => ?_, fun m h => ?_, fun p req act s h => ?_,
    fun p m h => ?_, fun msg w i h => ?_, fun m h => ?_,
    fun msg w i h => ?_, fun m h => ?_, fun msg w i a h => ?_,
    fun m h => ?_⟩ <;>
    simp [get_volume, set_volume, mute, unmute, toggle_mute, h]

/-- C8 as amended, evaluated: the uninitialized `get_volume` tool reply
is the prefixed error line. -/
theorem tool_render_patterns_witness :
    (get_volume none).1 = "âŒ Error: " ++ "Audio interface not initialized" :=
  (tool_render_patterns none).2.1 "Audio interface not initialized" rfl
